import Mathlib

/-!
Verification development for the AgriSense-Lite composite alert engine.

Part 1 embeds `src/analysis/composite_alerts.py` (the per-day rule classifier
`_classify_row` and its driver `detect_composite_alerts`): table cells are
`Option ℚ` (`none` models a missing column entry or NaN, so `pd.notna`
becomes `Option.isSome`), a row is a map from column name to cell, mirroring
`row.get`, and the driver returns `Except` to model the `ValueError` raised
when the mandatory `date` column is absent.  Reason strings are abstracted to
stable tags (one tag per `reasons.append` site in the source); no property
below inspects their text.

Part 2 models, from the specification, the composite alert engine whose
implementation (support-window resolution, QC/gating, composite resolution,
event merging, configuration validation) is not present under `src/` — only
its callers and output consumers are (`scripts/make_report.py`,
`scripts/build_stage_summaries.py`, `src/utils/config_loader.py`).
-/

set_option maxHeartbeats 1000000

namespace AgriSense

/-- A nullable table cell: `none` models a missing value or NaN. -/
abbrev Cell := Option ℚ

/-- `pd.notna x and x >= c`. -/
def cellGe (x : Cell) (c : ℚ) : Bool :=
  match x with
  | some v => decide (c ≤ v)
  | none => false

/-- `pd.notna x and x < c`. -/
def cellLt (x : Cell) (c : ℚ) : Bool :=
  match x with
  | some v => decide (v < c)
  | none => false

/-- `pd.notna x and x > c`. -/
def cellGt (x : Cell) (c : ℚ) : Bool :=
  match x with
  | some v => decide (c < v)
  | none => false

/-- `pd.notna x and x <= c`. -/
def cellLe (x : Cell) (c : ℚ) : Bool :=
  match x with
  | some v => decide (v ≤ c)
  | none => false

namespace Analysis

/-- A data-frame row as accessed through `row.get(name)`:
absent columns and NaN entries both yield `none`. -/
abbrev Row := String → Cell

/-- The threshold keyword arguments of `_classify_row`. -/
structure Thresholds where
  ndvi_thresh : ℚ
  ndmi_thresh : ℚ
  ndmi_strong_thresh : ℚ
  msi_thresh : ℚ
  msi_strong_thresh : ℚ
  ndre_thresh : ℚ
  ndre_strong_thresh : ℚ
  evi_thresh : ℚ
  gndvi_thresh : ℚ
  precip_thresh : ℚ
  rainlong_thresh : ℚ
  humidity_thresh : ℚ
  ndmi_wet_thresh : ℚ
  tmean_hot_thresh : ℚ
  tmean_cold_thresh : ℚ
  rh_high_thresh : ℚ
  rh_low_thresh : ℚ
  evi_cover_thresh : ℚ

/-- The default keyword arguments of `detect_composite_alerts`. -/
def defaultThresholds : Thresholds where
  ndvi_thresh := 0.35
  ndmi_thresh := 0.25
  ndmi_strong_thresh := 0.15
  msi_thresh := 0.8
  msi_strong_thresh := 1.2
  ndre_thresh := 0.28
  ndre_strong_thresh := 0.20
  evi_thresh := 0.2
  gndvi_thresh := 0.5
  precip_thresh := 20.0
  rainlong_thresh := 40.0
  humidity_thresh := 0.75
  ndmi_wet_thresh := 0.60
  tmean_hot_thresh := 30.0
  tmean_cold_thresh := 5.0
  rh_high_thresh := 0.75
  rh_low_thresh := 0.30
  evi_cover_thresh := 0.20

/-- The values extracted at the top of `_classify_row`
("Extract values; fall back to NaN if column missing"). -/
structure RowVals where
  ndvi : Cell
  ndmi : Cell
  msi : Cell
  ndre : Cell
  evi : Cell
  gndvi : Cell
  precip : Cell
  tmean : Cell
  rh : Cell

/-- The nine `row.get` reads at the top of `_classify_row`. -/
def read_row (row : Row) : RowVals where
  ndvi := row "ndvi_mean_daily"
  ndmi := row "ndmi_mean"
  msi := row "msi_mean"
  ndre := row "ndre_mean"
  evi := row "evi_mean"
  gndvi := row "gndvi_mean"
  precip := row "precip_7d"
  tmean := row "tmean_7d"
  rh := row "relative_humidity_2m_mean"

/-- `canopy_ok`: EVI above the cover threshold, or else NDVI above the NDVI
threshold (the `if`/`elif` pair in the source is an inclusive disjunction). -/
def canopy_ok (t : Thresholds) (v : RowVals) : Bool :=
  cellGe v.evi t.evi_cover_thresh || cellGe v.ndvi t.ndvi_thresh

/-- `drought_flag`: strong NDMI, else strong MSI, else the two mild branches
(mild NDMI with low rain, then mild MSI with low rain). -/
def drought_flag (t : Thresholds) (v : RowVals) : Bool :=
  if canopy_ok t v then
    if cellLt v.ndmi t.ndmi_strong_thresh then true
    else if cellGt v.msi t.msi_strong_thresh then true
    else
      (cellLt v.ndmi t.ndmi_thresh && cellLt v.precip t.precip_thresh)
        || (cellGt v.msi t.msi_thresh && cellLt v.precip t.precip_thresh)
  else false

/-- The waterlogging test of `_classify_row`, without the enclosing
`if not drought_flag` guard: wet NDMI, sparse NDVI, heavy 7-day rain. -/
def waterlog_cond (t : Thresholds) (v : RowVals) : Bool :=
  cellGt v.ndmi t.ndmi_wet_thresh && cellLt v.ndvi t.ndvi_thresh
    && cellGt v.precip t.rainlong_thresh

/-- `heat_flag`: hot 7-day mean, RH absent or low, EVI below stress threshold. -/
def heat_flag (t : Thresholds) (v : RowVals) : Bool :=
  cellGt v.tmean t.tmean_hot_thresh
    && (v.rh.isNone || cellLt v.rh (t.rh_low_thresh * 100))
    && cellLt v.evi t.evi_thresh

/-- `cold_flag`: cold 7-day mean and high RH. -/
def cold_flag (t : Thresholds) (v : RowVals) : Bool :=
  cellLt v.tmean t.tmean_cold_thresh && cellGt v.rh (t.rh_high_thresh * 100)

/-- The `nutrient_indicators` list built inside `_classify_row`
(tags stand in for the formatted strings). -/
def nutrient_indicators (t : Thresholds) (v : RowVals) : List String :=
  (if cellLt v.ndre t.ndre_strong_thresh then ["NDRE_strong"]
   else if cellLt v.ndre t.ndre_thresh then ["NDRE_mild"] else [])
    ++ (if cellLt v.gndvi t.gndvi_thresh then ["GNDVI_low"] else [])
    ++ (if cellLt v.evi t.evi_thresh then ["EVI_low"] else [])

/-- `moisture_ok`: neither a low NDMI nor a high MSI contradicts adequate moisture. -/
def moisture_ok (t : Thresholds) (v : RowVals) : Bool :=
  !(cellLt v.ndmi t.ndmi_thresh) && !(cellGt v.msi t.msi_thresh)

/-- The body of the nutrient/pest test, without the
`if not (drought or waterlog or heat or cold)` guard. -/
def nutrient_cond (t : Thresholds) (v : RowVals) : Bool :=
  !(nutrient_indicators t v).isEmpty && moisture_ok t v

/-- The drought entries appended to `reasons` (tags for the format strings;
the second mild branch runs only when the first did not set the flag). -/
def drought_reasons (t : Thresholds) (v : RowVals) : List String :=
  if canopy_ok t v then
    if cellLt v.ndmi t.ndmi_strong_thresh then ["NDMI_strong_drought"]
    else if cellGt v.msi t.msi_strong_thresh then ["MSI_strong_drought"]
    else
      (if cellLt v.ndmi t.ndmi_thresh && cellLt v.precip t.precip_thresh then
        ["NDMI_drought_low_precip"] else [])
        ++ (if !(cellLt v.ndmi t.ndmi_thresh && cellLt v.precip t.precip_thresh)
              && (cellGt v.msi t.msi_thresh && cellLt v.precip t.precip_thresh) then
            ["MSI_drought_low_precip"] else [])
  else []

/-- The result dictionary of `_classify_row`. -/
structure ClassifyResult where
  event_type : String
  reason : List String
deriving DecidableEq, Repr

/-- The flag wiring and final `event_type` chain of `_classify_row`:
waterlogging is tested only when drought did not fire, the nutrient test only
when none of the other four flags is set, and the result is picked by the
`if`/`elif` cascade at the end of the function. -/
def classify_vals (t : Thresholds) (v : RowVals) : ClassifyResult :=
  let dr := drought_flag t v
  let wl := !dr && waterlog_cond t v
  let ht := heat_flag t v
  let cd := cold_flag t v
  let nu := !(dr || wl || ht || cd) && nutrient_cond t v
  { event_type :=
      if dr then "drought"
      else if wl then "waterlogging"
      else if ht then "heat_stress"
      else if cd then "cold_stress"
      else if nu then "nutrient_or_pest"
      else "normal"
    reason :=
      drought_reasons t v
        ++ (if wl then ["NDMI_wet_NDVI_low_heavy_rain"] else [])
        ++ (if ht then ["tmean_hot_EVI_low"] else [])
        ++ (if cd then ["tmean_cold_RH_high"] else [])
        ++ (if nu then
              nutrient_indicators t v
                ++ (if cellGt v.rh (t.humidity_thresh * 100) then ["RH_high"] else [])
            else []) }

/-- `_classify_row`. -/
def classify_row (t : Thresholds) (row : Row) : ClassifyResult :=
  classify_vals t (read_row row)

/-- The input data frame: declared column names plus one row map per date. -/
structure Table where
  columns : List String
  rows : List Row

/-- One output row of `detect_composite_alerts`. -/
structure Alert where
  date : Cell
  event_type : String
  reason : List String

/-- The per-row output assembled by `detect_composite_alerts`. -/
def row_alert (t : Thresholds) (row : Row) : Alert where
  date := row "date"
  event_type := (classify_row t row).event_type
  reason := (classify_row t row).reason

/-- `detect_composite_alerts`: raise `ValueError` when the `date` column is
missing, otherwise classify every row and, when `drop_normal`, filter out the
rows classified `normal`. -/
def detect_composite_alerts (t : Thresholds) (drop_normal : Bool) (df : Table) :
    Except String (List Alert) :=
  if "date" ∈ df.columns then
    let out := df.rows.map (row_alert t)
    .ok (if drop_normal then out.filter (fun a => a.event_type != "normal") else out)
  else
    .error "input dataframe must contain a date column"

/-- The columns `_classify_row` reads, plus `date` used by the driver. -/
def used_cols : List String :=
  ["date", "ndvi_mean_daily", "ndmi_mean", "msi_mean", "ndre_mean", "evi_mean",
    "gndvi_mean", "precip_7d", "tmean_7d", "relative_humidity_2m_mean"]

/-- Two rows agree on every column the engine reads. -/
def RowsAgree (r₁ r₂ : Row) : Prop := ∀ c ∈ used_cols, r₁ c = r₂ c

end Analysis

namespace SpecModel

/-- Modelled from the spec: the configuration surface of the composite alert
engine, whose implementation is absent from `src/` (its thresholds appear only
as configuration keys in `scripts/build_stage_summaries.py`).  Defaults are
the documented ones: `ndvi_crop=0.45, evi_crop=0.35, ndmi_dry=0.20,
msi_dry=1.50, precip_low7=15.0, ndmi_wet=0.45, precip_high7=60.0,
heat_tmean7=30.0, heat_rh7=60.0, cold_tmin7=3.0, ndre_low=0.30,
gndvi_low=0.50, slope7_drop=-0.03`. -/
structure AlertConfig where
  ndvi_crop : ℚ := 0.45
  evi_crop : ℚ := 0.35
  ndmi_dry : ℚ := 0.20
  msi_dry : ℚ := 1.50
  precip_low7 : ℚ := 15.0
  ndmi_wet : ℚ := 0.45
  precip_high7 : ℚ := 60.0
  heat_tmean7 : ℚ := 30.0
  heat_rh7 : ℚ := 60.0
  cold_tmin7 : ℚ := 3.0
  ndre_low : ℚ := 0.30
  gndvi_low : ℚ := 0.50
  slope7_drop : ℚ := -0.03

/-- Modelled from the spec: the documented default configuration. -/
def default_config : AlertConfig := {}

/-- Modelled from the spec: the per-day inputs the rule classifier reads
(filled indicator values, weather rolling aggregates, NDVI slope); `none`
models a missing or non-finite value. -/
structure DayVals where
  ndvi_fill : Cell := none
  evi_fill : Cell := none
  ndmi_fill : Cell := none
  ndre_fill : Cell := none
  gndvi_fill : Cell := none
  msi_fill : Cell := none
  precip_7d : Cell := none
  tmean_7d : Cell := none
  rh_7d : Cell := none
  tmin_7d : Cell := none
  ndvi_slope7 : Cell := none
deriving DecidableEq

/-- Modelled from the spec: canopy presence `_canopy_ok`, absent from `src/`:
`ndvi_fill ≥ NDVI_CROP OR evi_fill ≥ EVI_CROP`. -/
def canopy_ok (c : AlertConfig) (r : DayVals) : Bool :=
  cellGe r.ndvi_fill c.ndvi_crop || cellGe r.evi_fill c.evi_crop

/-- Modelled from the spec: the drought rule, guarded by canopy presence and
by its referenced inputs being finite:
`(ndmi_fill < NDMI_DRY OR msi_fill > MSI_DRY) AND precip_7d < PRECIP_LOW7`. -/
def drought_rule (c : AlertConfig) (r : DayVals) : Bool :=
  canopy_ok c r &&
    match r.ndmi_fill, r.msi_fill, r.precip_7d with
    | some ndmi, some msi, some precip =>
        decide (ndmi < c.ndmi_dry ∨ c.msi_dry < msi) && decide (precip < c.precip_low7)
    | _, _, _ => false

/-- Modelled from the spec: the waterlogging rule, guarded by canopy presence
and finiteness: `ndmi_fill > NDMI_WET AND precip_7d > PRECIP_HIGH7 AND
(evi_fill < EVI_CROP OR ndvi_fill < NDVI_CROP)`. -/
def waterlogging_rule (c : AlertConfig) (r : DayVals) : Bool :=
  canopy_ok c r &&
    match r.ndmi_fill, r.precip_7d, r.evi_fill, r.ndvi_fill with
    | some ndmi, some precip, some evi, some ndvi =>
        decide (c.ndmi_wet < ndmi) && decide (c.precip_high7 < precip)
          && decide (evi < c.evi_crop ∨ ndvi < c.ndvi_crop)
    | _, _, _, _ => false

/-- Modelled from the spec: the heat-stress rule, guarded by canopy presence
and finiteness: `tmean_7d ≥ HEAT_TMEAN7 AND rh_7d ≤ HEAT_RH7 AND
(evi_fill < EVI_CROP OR ndvi_slope7 ≤ SLOPE7_DROP)`. -/
def heat_stress_rule (c : AlertConfig) (r : DayVals) : Bool :=
  canopy_ok c r &&
    match r.tmean_7d, r.rh_7d, r.evi_fill, r.ndvi_slope7 with
    | some tm, some rh, some evi, some sl =>
        decide (c.heat_tmean7 ≤ tm) && decide (rh ≤ c.heat_rh7)
          && decide (evi < c.evi_crop ∨ sl ≤ c.slope7_drop)
    | _, _, _, _ => false

/-- Modelled from the spec: the cold-stress rule, guarded by canopy presence
and finiteness: `tmin_7d ≤ COLD_TMIN7 AND (evi_fill < 0.40 OR
ndvi_fill < 0.50 OR ndvi_slope7 ≤ SLOPE7_DROP)`. -/
def cold_stress_rule (c : AlertConfig) (r : DayVals) : Bool :=
  canopy_ok c r &&
    match r.tmin_7d, r.evi_fill, r.ndvi_fill, r.ndvi_slope7 with
    | some tn, some evi, some ndvi, some sl =>
        decide (tn ≤ c.cold_tmin7)
          && decide (evi < (0.40 : ℚ) ∨ ndvi < (0.50 : ℚ) ∨ sl ≤ c.slope7_drop)
    | _, _, _, _ => false

/-- Modelled from the spec: the nutrient-or-pest rule, guarded by canopy
presence and finiteness: `(ndre_fill < NDRE_LOW OR gndvi_fill < GNDVI_LOW)
AND ndmi_fill ≥ NDMI_DRY`. -/
def nutrient_or_pest_rule (c : AlertConfig) (r : DayVals) : Bool :=
  canopy_ok c r &&
    match r.ndre_fill, r.gndvi_fill, r.ndmi_fill with
    | some ndre, some gndvi, some ndmi =>
        decide (ndre < c.ndre_low ∨ gndvi < c.gndvi_low) && decide (c.ndmi_dry ≤ ndmi)
    | _, _, _ => false

/-- Modelled from the spec: the names of the rules that trigger on a day, in
the fixed evaluation order drought, waterlogging, heat, cold, nutrient. -/
def triggered_rules (c : AlertConfig) (r : DayVals) : List String :=
  (if drought_rule c r then ["drought"] else [])
    ++ (if waterlogging_rule c r then ["waterlogging"] else [])
    ++ (if heat_stress_rule c r then ["heat_stress"] else [])
    ++ (if cold_stress_rule c r then ["cold_stress"] else [])
    ++ (if nutrient_or_pest_rule c r then ["nutrient_or_pest"] else [])

/-- An alert produced for one day. -/
structure SpecAlert where
  event_type : String
  reason : String
deriving DecidableEq, Repr

/-- Modelled from the spec: trigger resolution — zero triggers → no alert,
exactly one → that event type (its evidence string is abstracted to the rule
name), two or more → `event_type = "composite"` with the join of the
triggered rule names as reason. -/
def classify_day (c : AlertConfig) (r : DayVals) : Option SpecAlert :=
  match triggered_rules c r with
  | [] => none
  | [n] => some ⟨n, n⟩
  | ns => some ⟨"composite", String.intercalate "+" ns⟩

/-- Modelled from the spec: one day as seen by the two classifier passes,
with the upstream QC and gating judgments attached. -/
structure Day where
  date : ℤ
  vals : DayVals
  qc_ok : Bool
  gating_ok : Bool

/-- Modelled from the spec: `allow_alert = qc_ok AND gating_ok`. -/
def allow_alert (d : Day) : Bool := d.qc_ok && d.gating_ok

/-- A dated alert row of the raw or gated output. -/
structure DatedAlert where
  date : ℤ
  alert : SpecAlert
deriving DecidableEq, Repr

/-- Modelled from the spec: the raw pass — classify every day that passes QC,
ignoring gating. -/
def raw_alerts (c : AlertConfig) (days : List Day) : List DatedAlert :=
  days.filterMap fun d =>
    if d.qc_ok then (classify_day c d.vals).map (fun a => ⟨d.date, a⟩) else none

/-- Modelled from the spec: the gated (final) pass — classify every day with
`allow_alert` set. -/
def gated_alerts (c : AlertConfig) (days : List Day) : List DatedAlert :=
  days.filterMap fun d =>
    if allow_alert d then (classify_day c d.vals).map (fun a => ⟨d.date, a⟩) else none

/-- Modelled from the spec: the two support-window modes. -/
inductive WindowMode
  | symmetric
  | past_only
deriving DecidableEq, Repr

/-- Modelled from the spec: the two tie-break policies for support picking. -/
inductive SupportPick
  | nearest
  | prefer_past
deriving DecidableEq, Repr

/-- Modelled from the spec: whether observation date `o` qualifies as support
for target day `d` — `symmetric`: `|d - o| ≤ W`; `past_only`: `0 ≤ d - o ≤ W`. -/
def in_window (mode : WindowMode) (W : ℕ) (d o : ℤ) : Bool :=
  match mode with
  | .symmetric => decide (|d - o| ≤ (W : ℤ))
  | .past_only => decide (0 ≤ d - o ∧ d - o ≤ (W : ℤ))

/-- Modelled from the spec: candidate support dates within the window of `d`. -/
def candidates (mode : WindowMode) (W : ℕ) (obs : List ℤ) (d : ℤ) : List ℤ :=
  obs.filter (fun o => in_window mode W d o)

/-- Is `a` preferable to `b` as support for `d`: strictly closer, or at the
same distance and more recent (the implementation-dependent tie-break the
spec documents for `nearest`). -/
def closer (d a b : ℤ) : Bool :=
  decide (|d - a| < |d - b|) || (decide (|d - a| = |d - b|) && decide (b < a))

/-- Modelled from the spec: the minimum-absolute-distance candidate, ties
broken toward the most recent date. -/
def nearest_support (d : ℤ) : List ℤ → Option ℤ
  | [] => none
  | o :: os =>
    match nearest_support d os with
    | none => some o
    | some b => if closer d o b then some o else some b

/-- Modelled from the spec: support picking — `nearest` takes the minimal
distance candidate; `prefer_past` takes the most recent non-future candidate
among the minimal-distance ties when one exists, else falls back. -/
def pick_support (pick : SupportPick) (d : ℤ) (cands : List ℤ) : Option ℤ :=
  match pick with
  | .nearest => nearest_support d cands
  | .prefer_past =>
    match nearest_support d cands with
    | none => none
    | some b =>
      match nearest_support d
          ((cands.filter fun o => decide (|d - o| = |d - b|)).filter fun o =>
            decide (o ≤ d)) with
      | some p => some p
      | none => some b

/-- The per-day output of the support-window resolver. -/
structure SupportInfo where
  rs_support_date : Option ℤ
  rs_support_age : ℤ
  rs_window_ok : Bool
deriving DecidableEq, Repr

/-- Modelled from the spec: the support-window resolver, absent from `src/`
(`src/transform/merge_data.py` computes only an unbounded past-fill
`rs_age`): `rs_support_age = |d - support|` with a `9999` sentinel when no
qualifying observation exists, `rs_window_ok` = support found and age `≤ W`. -/
def resolve_support (mode : WindowMode) (pick : SupportPick) (W : ℕ)
    (obs : List ℤ) (d : ℤ) : SupportInfo :=
  match pick_support pick d (candidates mode W obs d) with
  | some s => ⟨some s, |d - s|, decide (|d - s| ≤ (W : ℤ))⟩
  | none => ⟨none, 9999, false⟩

/-- Modelled from the spec: the four gating modes. -/
inductive GatingMode
  | off
  | month_window
  | canopy_obs
  | both
deriving DecidableEq, Repr

/-- The recognized gating-mode enum values. -/
def gating_mode_names : List String := ["off", "month_window", "canopy_obs", "both"]

/-- The recognized window-mode enum values. -/
def window_mode_names : List String := ["symmetric", "past_only"]

/-- Modelled from the spec: parsing of the gating-mode key — an absent key
takes the documented default `canopy_obs`, an unrecognized value is a
configuration error. -/
def parse_gating_mode : Option String → Except String GatingMode
  | none => .ok .canopy_obs
  | some s =>
    if s = "off" then .ok .off
    else if s = "month_window" then .ok .month_window
    else if s = "canopy_obs" then .ok .canopy_obs
    else if s = "both" then .ok .both
    else .error ("unknown gating mode: " ++ s)

/-- Modelled from the spec: parsing of the window-mode key — an absent key
takes the default `symmetric`, an unrecognized value is a configuration
error. -/
def parse_window_mode : Option String → Except String WindowMode
  | none => .ok .symmetric
  | some s =>
    if s = "symmetric" then .ok .symmetric
    else if s = "past_only" then .ok .past_only
    else .error ("unknown window mode: " ++ s)

/-- Modelled from the spec: startup configuration validation — fail fast on
the first unrecognized enum value. -/
def validate_config (gm wm : Option String) : Except String (GatingMode × WindowMode) :=
  match parse_gating_mode gm with
  | .error e => .error e
  | .ok g =>
    match parse_window_mode wm with
    | .error e => .error e
    | .ok w => .ok (g, w)

/-- Insert a date into a date-sorted list. -/
def insert_date (d : ℤ) : List ℤ → List ℤ
  | [] => [d]
  | x :: xs => if d ≤ x then d :: x :: xs else x :: insert_date d xs

/-- Sort a list of dates ascending (insertion sort). -/
def sort_dates (l : List ℤ) : List ℤ := l.foldr insert_date []

/-- Modelled from the spec: split a sorted date list into buckets, starting a
new bucket whenever the gap since the previous alert date exceeds
`merge_gap_days + 1`; `cur` carries the current bucket reversed, `prev` the
previous alert date. -/
def buckets_aux (g : ℕ) (cur : List ℤ) (prev : ℤ) : List ℤ → List (List ℤ)
  | [] => [cur.reverse]
  | d :: ds =>
    if (g : ℤ) + 1 < d - prev then cur.reverse :: buckets_aux g [d] d ds
    else buckets_aux g (d :: cur) d ds

/-- Modelled from the spec: bucketing of a sorted date list. -/
def bucket_dates (g : ℕ) : List ℤ → List (List ℤ)
  | [] => []
  | d :: ds => buckets_aux g [d] d ds

/-- One merged event (the peak fields, which no claim references, are not
modelled). -/
structure MergedEvent where
  event_type : String
  start_date : ℤ
  end_date : ℤ
  duration_days : ℤ
deriving DecidableEq, Repr

/-- Minimum date of a bucket. -/
def bucket_min : List ℤ → ℤ
  | [] => 0
  | x :: xs => xs.foldl min x

/-- Maximum date of a bucket. -/
def bucket_max : List ℤ → ℤ
  | [] => 0
  | x :: xs => xs.foldl max x

/-- Modelled from the spec: one event per bucket — `start_date`/`end_date`
from min/max date, `duration_days = (end - start) + 1`. -/
def event_of_bucket (ty : String) (b : List ℤ) : MergedEvent :=
  ⟨ty, bucket_min b, bucket_max b, bucket_max b - bucket_min b + 1⟩

/-- The dates carrying an alert of the given type, sorted ascending. -/
def dates_of_type (alerts : List DatedAlert) (ty : String) : List ℤ :=
  sort_dates ((alerts.filter (fun a => a.alert.event_type == ty)).map (fun a => a.date))

/-- The distinct event types present, in order of first appearance. -/
def event_types_of (alerts : List DatedAlert) : List String :=
  (alerts.map (fun a => a.alert.event_type)).dedup

/-- Modelled from the spec: the event merger, absent from `src/` — group the
gated alerts by `event_type`, bucket each group's sorted dates by the
`merge_gap_days` rule, and emit one event per bucket; buckets of different
types are never merged. -/
def merge_alerts (g : ℕ) (alerts : List DatedAlert) : List MergedEvent :=
  (event_types_of alerts).flatMap fun ty =>
    (bucket_dates g (dates_of_type alerts ty)).map (event_of_bucket ty)

/-- A day on which both the drought and the heat-stress rule conditions hold
(and no other rule): canopy via NDVI, low NDMI and rain for drought, hot dry
week with low EVI for heat stress. -/
def both_row : DayVals where
  ndvi_fill := some 0.6
  evi_fill := some 0.2
  ndmi_fill := some 0.1
  ndre_fill := some 0.5
  gndvi_fill := some 0.6
  msi_fill := some 0.5
  precip_7d := some 5
  tmean_7d := some 35
  rh_7d := some 40
  tmin_7d := some 20
  ndvi_slope7 := some 0

/-- The day of `both_row`, passing QC and gating. -/
def both_day : Day := ⟨7, both_row, true, true⟩

/-- The concrete scenario row of the spec:
`ndmi_fill=0.10, msi_fill=0.5, precip_7d=5.0, ndvi_fill=0.6, evi_fill=0.5`. -/
def scenario_row : DayVals where
  ndmi_fill := some 0.10
  msi_fill := some 0.5
  precip_7d := some 5.0
  ndvi_fill := some 0.6
  evi_fill := some 0.5

/-- A day with no data at all, hence no canopy presence. -/
def no_canopy_row : DayVals := {}

/-- A day of the concrete scenario, passing QC and gating. -/
def scenario_day : Day := ⟨1, scenario_row, true, true⟩

end SpecModel

namespace Analysis

/-- A row with no data in any column. -/
def empty_row : Row := fun _ => none

/-- Column list of a small test table carrying an extra column the engine
never reads. -/
def test_cols : List String := ["date", "ndmi_mean", "extra_col"]

/-- A test row: day 1, observed NDMI 0.1. -/
def test_rowA : Row := fun c =>
  if c = "date" then some 1 else if c = "ndmi_mean" then some 0.1 else none

/-- `test_rowA` with extra data in a column the engine never reads. -/
def test_rowB : Row := fun c =>
  if c = "date" then some 1
  else if c = "ndmi_mean" then some 0.1
  else if c = "extra_col" then some 7 else none

/-- A row triggering only the nutrient/pest rule: low NDRE and GNDVI with
adequate NDMI, nothing else observed. -/
def nutrient_row : Row := fun c =>
  if c = "ndre_mean" then some 0.1
  else if c = "gndvi_mean" then some 0.3
  else if c = "ndmi_mean" then some 0.5 else none

end Analysis

namespace Analysis

theorem row_alert_agree (t : Thresholds) {r₁ r₂ : Row} (h : RowsAgree r₁ r₂) :
    row_alert t r₁ = row_alert t r₂ := by
  have hd : r₁ "date" = r₂ "date" := h _ (by simp [used_cols])
  have hr : read_row r₁ = read_row r₂ := by
    unfold read_row
    rw [h "ndvi_mean_daily" (by simp [used_cols]), h "ndmi_mean" (by simp [used_cols]),
      h "msi_mean" (by simp [used_cols]), h "ndre_mean" (by simp [used_cols]),
      h "evi_mean" (by simp [used_cols]), h "gndvi_mean" (by simp [used_cols]),
      h "precip_7d" (by simp [used_cols]), h "tmean_7d" (by simp [used_cols]),
      h "relative_humidity_2m_mean" (by simp [used_cols])]
  unfold row_alert classify_row
  rw [hd, hr]

theorem map_row_alert_agree (t : Thresholds) {l₁ l₂ : List Row}
    (h : List.Forall₂ RowsAgree l₁ l₂) : l₁.map (row_alert t) = l₂.map (row_alert t) := by
  induction h with
  | nil => rfl
  | cons ha _ ih => simp only [List.map_cons, row_alert_agree t ha, ih]

/-- C4: `detect_composite_alerts` fails (raising, hence producing no output)
exactly when the mandatory `date` column is absent; with `date` present it
always returns an output table, and a row with every other column absent is
classified `normal` (treated as entirely-missing data), never an error. -/
theorem detect_date_mandatory :
    ∀ (t : Thresholds) (dn : Bool) (df : Table),
      ((∃ e, detect_composite_alerts t dn df = .error e) ↔ "date" ∉ df.columns)
      ∧ ("date" ∈ df.columns → ∃ out, detect_composite_alerts t dn df = .ok out)
      ∧ classify_row t empty_row = ⟨"normal", []⟩ := by
  intro t dn df
  refine ⟨?_, ?_, rfl⟩
  · unfold detect_composite_alerts
    by_cases h : "date" ∈ df.columns <;> simp [h]
  · intro h
    unfold detect_composite_alerts
    simp [h]

/-- Witness for C4 at a one-column table. -/
theorem detect_date_mandatory_witness :
    ∃ out, detect_composite_alerts defaultThresholds true ⟨["date"], []⟩ = .ok out :=
  (detect_date_mandatory defaultThresholds true ⟨["date"], []⟩).2.1 (by simp)

/-- C6: the engine is a pure function of its input — its output is fully
determined by the configuration and the columns it reads, so two runs on
identical input and configuration produce identical output tables (the
input rows are never mutated in this embedding). -/
theorem detect_deterministic :
    ∀ (t : Thresholds) (dn : Bool) (df₁ df₂ : Table),
      df₁.columns = df₂.columns →
      List.Forall₂ RowsAgree df₁.rows df₂.rows →
      detect_composite_alerts t dn df₁ = detect_composite_alerts t dn df₂ := by
  intro t dn df₁ df₂ hc hr
  unfold detect_composite_alerts
  rw [hc, map_row_alert_agree t hr]

/-- Witness for C6: two tables differing only in a column the engine never
reads produce the same output. -/
theorem detect_deterministic_witness :
    detect_composite_alerts defaultThresholds true ⟨test_cols, [test_rowA]⟩
      = detect_composite_alerts defaultThresholds true ⟨test_cols, [test_rowB]⟩ :=
  detect_deterministic defaultThresholds true _ _ rfl
    (List.Forall₂.cons
      (by
        intro c hc
        simp only [used_cols, List.mem_cons, List.not_mem_nil, or_false] at hc
        rcases hc with rfl | rfl | rfl | rfl | rfl | rfl | rfl | rfl | rfl | rfl <;> rfl)
      List.Forall₂.nil)

/-- C10: `_classify_row` returns exactly one event type, picked by the fixed
priority drought > waterlogging > heat_stress > cold_stress >
nutrient_or_pest over the rule conditions; the nutrient test runs only when
no other flag is set, so `nutrient_or_pest` is never reported when any other
rule's conditions hold, and `"composite"` is never returned. -/
theorem classify_priority :
    ∀ (t : Thresholds) (row : Row),
      ((classify_row t row).event_type =
        (if drought_flag t (read_row row) then "drought"
         else if waterlog_cond t (read_row row) then "waterlogging"
         else if heat_flag t (read_row row) then "heat_stress"
         else if cold_flag t (read_row row) then "cold_stress"
         else if nutrient_cond t (read_row row) then "nutrient_or_pest"
         else "normal"))
      ∧ ((classify_row t row).event_type = "nutrient_or_pest" →
          drought_flag t (read_row row) = false ∧ waterlog_cond t (read_row row) = false
            ∧ heat_flag t (read_row row) = false ∧ cold_flag t (read_row row) = false)
      ∧ (classify_row t row).event_type ≠ "composite" := by
  intro t row
  unfold classify_row classify_vals
  cases hdr : drought_flag t (read_row row) <;>
    cases hwc : waterlog_cond t (read_row row) <;>
    cases hht : heat_flag t (read_row row) <;>
    cases hcd : cold_flag t (read_row row) <;>
    cases hnc : nutrient_cond t (read_row row) <;>
    simp_all

/-- Witness for C10 at a row where only the nutrient/pest rule fires. -/
theorem classify_priority_witness :
    drought_flag defaultThresholds (read_row nutrient_row) = false
      ∧ waterlog_cond defaultThresholds (read_row nutrient_row) = false
      ∧ heat_flag defaultThresholds (read_row nutrient_row) = false
      ∧ cold_flag defaultThresholds (read_row nutrient_row) = false :=
  (classify_priority defaultThresholds nutrient_row).2.1
    (by
      norm_num +decide [classify_row, classify_vals, drought_flag, waterlog_cond, heat_flag,
        cold_flag, nutrient_cond, nutrient_indicators, moisture_ok, canopy_ok, cellGe,
        cellLt, cellGt, read_row, nutrient_row, defaultThresholds])

end Analysis

namespace SpecModel

/-- C1: whenever two or more of the five rules trigger, the classifier emits
a single alert with `event_type = "composite"` whose reason joins the
triggered rule names; concretely, a day meeting both the drought and the
heat-stress conditions yields exactly one composite alert in the raw output
and appears in neither the drought-only nor the heat-stress-only entries. -/
theorem composite_resolution :
    (∀ (c : AlertConfig) (r : DayVals), 2 ≤ (triggered_rules c r).length →
        classify_day c r = some ⟨"composite", String.intercalate "+" (triggered_rules c r)⟩)
    ∧ triggered_rules default_config both_row = ["drought", "heat_stress"]
    ∧ raw_alerts default_config [both_day] = [⟨7, ⟨"composite", "drought+heat_stress"⟩⟩]
    ∧ (raw_alerts default_config [both_day]).filter
        (fun a => a.alert.event_type == "drought") = []
    ∧ (raw_alerts default_config [both_day]).filter
        (fun a => a.alert.event_type == "heat_stress") = [] := by
  have hrules : triggered_rules default_config both_row = ["drought", "heat_stress"] := by
    norm_num [triggered_rules, drought_rule, waterlogging_rule, heat_stress_rule,
      cold_stress_rule, nutrient_or_pest_rule, canopy_ok, cellGe, cellLt, cellGt,
      both_row, default_config]
  have hraw : raw_alerts default_config [both_day]
      = [⟨7, ⟨"composite", "drought+heat_stress"⟩⟩] := by
    norm_num [raw_alerts, both_day, List.filterMap, classify_day, hrules,
      String.intercalate]
    rfl
  refine ⟨?_, hrules, hraw, by rw [hraw]; rfl, by rw [hraw]; rfl⟩
  intro c r h
  rcases ht : triggered_rules c r with _ | ⟨a, _ | ⟨b, rest⟩⟩
  · rw [ht] at h; simp at h
  · rw [ht] at h; simp at h
  · simp only [classify_day, ht]

/-- Witness for C1 at the drought-and-heat day. -/
theorem composite_resolution_witness :
    classify_day default_config both_row
      = some ⟨"composite", String.intercalate "+" (triggered_rules default_config both_row)⟩ :=
  composite_resolution.1 default_config both_row
    (by rw [composite_resolution.2.1]; exact Nat.le_refl 2)

/-- C2: on the row `ndmi_fill=0.10, msi_fill=0.5, precip_7d=5.0,
ndvi_fill=0.6, evi_fill=0.5` with all thresholds at their defaults, the
drought rule fires (`0.10 < 0.20` and `5.0 < 15.0`), no other rule fires,
and the alert has `event_type = "drought"`. -/
theorem concrete_drought_scenario :
    drought_rule default_config scenario_row = true
    ∧ ((0.10 : ℚ) < default_config.ndmi_dry ∧ (5.0 : ℚ) < default_config.precip_low7)
    ∧ waterlogging_rule default_config scenario_row = false
    ∧ heat_stress_rule default_config scenario_row = false
    ∧ cold_stress_rule default_config scenario_row = false
    ∧ nutrient_or_pest_rule default_config scenario_row = false
    ∧ classify_day default_config scenario_row = some ⟨"drought", "drought"⟩ := by
  have h1 : drought_rule default_config scenario_row = true := by
    norm_num [drought_rule, canopy_ok, cellGe, scenario_row, default_config]
  have h2 : waterlogging_rule default_config scenario_row = false := by
    norm_num [waterlogging_rule, canopy_ok, cellGe, scenario_row, default_config]
  have h3 : heat_stress_rule default_config scenario_row = false := by
    norm_num [heat_stress_rule, canopy_ok, cellGe, scenario_row, default_config]
  have h4 : cold_stress_rule default_config scenario_row = false := by
    norm_num [cold_stress_rule, canopy_ok, cellGe, scenario_row, default_config]
  have h5 : nutrient_or_pest_rule default_config scenario_row = false := by
    norm_num [nutrient_or_pest_rule, canopy_ok, cellGe, scenario_row, default_config]
  refine ⟨h1, by norm_num [default_config], h2, h3, h4, h5, ?_⟩
  simp only [classify_day, triggered_rules, h1, h2, h3, h4, h5]
  rfl

/-- C3: every one of the five rules is guarded by canopy presence and by all
of its referenced inputs being finite — when canopy presence fails no rule
fires, and a firing rule implies canopy presence and presence of each input
it references. -/
theorem canopy_finiteness_guard :
    ∀ (c : AlertConfig) (r : DayVals),
      (canopy_ok c r = false →
        drought_rule c r = false ∧ waterlogging_rule c r = false
          ∧ heat_stress_rule c r = false ∧ cold_stress_rule c r = false
          ∧ nutrient_or_pest_rule c r = false)
      ∧ (drought_rule c r = true →
          canopy_ok c r = true ∧ r.ndmi_fill.isSome = true ∧ r.msi_fill.isSome = true
            ∧ r.precip_7d.isSome = true)
      ∧ (waterlogging_rule c r = true →
          canopy_ok c r = true ∧ r.ndmi_fill.isSome = true ∧ r.precip_7d.isSome = true
            ∧ r.evi_fill.isSome = true ∧ r.ndvi_fill.isSome = true)
      ∧ (heat_stress_rule c r = true →
          canopy_ok c r = true ∧ r.tmean_7d.isSome = true ∧ r.rh_7d.isSome = true
            ∧ r.evi_fill.isSome = true ∧ r.ndvi_slope7.isSome = true)
      ∧ (cold_stress_rule c r = true →
          canopy_ok c r = true ∧ r.tmin_7d.isSome = true ∧ r.evi_fill.isSome = true
            ∧ r.ndvi_fill.isSome = true ∧ r.ndvi_slope7.isSome = true)
      ∧ (nutrient_or_pest_rule c r = true →
          canopy_ok c r = true ∧ r.ndre_fill.isSome = true ∧ r.gndvi_fill.isSome = true
            ∧ r.ndmi_fill.isSome = true) := by
  intro c r
  refine ⟨fun h => ?_, fun h => ?_, fun h => ?_, fun h => ?_, fun h => ?_, fun h => ?_⟩
  · simp [drought_rule, waterlogging_rule, heat_stress_rule, cold_stress_rule,
      nutrient_or_pest_rule, h]
  · simp only [drought_rule, Bool.and_eq_true] at h
    rcases hm : r.ndmi_fill with _ | x <;> rcases hs : r.msi_fill with _ | y <;>
      rcases hp : r.precip_7d with _ | z <;> rw [hm, hs, hp] at h <;>
      simp_all
  · simp only [waterlogging_rule, Bool.and_eq_true] at h
    rcases hm : r.ndmi_fill with _ | x₁ <;> rcases hp : r.precip_7d with _ | x₂ <;>
      rcases he : r.evi_fill with _ | x₃ <;> rcases hn : r.ndvi_fill with _ | x₄ <;>
      rw [hm, hp, he, hn] at h <;> simp_all
  · simp only [heat_stress_rule, Bool.and_eq_true] at h
    rcases hm : r.tmean_7d with _ | x₁ <;> rcases hp : r.rh_7d with _ | x₂ <;>
      rcases he : r.evi_fill with _ | x₃ <;> rcases hn : r.ndvi_slope7 with _ | x₄ <;>
      rw [hm, hp, he, hn] at h <;> simp_all
  · simp only [cold_stress_rule, Bool.and_eq_true] at h
    rcases hm : r.tmin_7d with _ | x₁ <;> rcases he : r.evi_fill with _ | x₂ <;>
      rcases hn : r.ndvi_fill with _ | x₃ <;> rcases hs : r.ndvi_slope7 with _ | x₄ <;>
      rw [hm, he, hn, hs] at h <;> simp_all
  · simp only [nutrient_or_pest_rule, Bool.and_eq_true] at h
    rcases hm : r.ndre_fill with _ | x₁ <;> rcases hg : r.gndvi_fill with _ | x₂ <;>
      rcases hn : r.ndmi_fill with _ | x₃ <;> rw [hm, hg, hn] at h <;> simp_all

/-- Witness for C3: no rule fires on a fully-missing day, and the firing
drought rule on the concrete scenario day implies canopy presence and finite
inputs. -/
theorem canopy_finiteness_guard_witness :
    (drought_rule default_config no_canopy_row = false
      ∧ waterlogging_rule default_config no_canopy_row = false
      ∧ heat_stress_rule default_config no_canopy_row = false
      ∧ cold_stress_rule default_config no_canopy_row = false
      ∧ nutrient_or_pest_rule default_config no_canopy_row = false)
    ∧ (canopy_ok default_config scenario_row = true
      ∧ scenario_row.ndmi_fill.isSome = true ∧ scenario_row.msi_fill.isSome = true
      ∧ scenario_row.precip_7d.isSome = true) :=
  ⟨(canopy_finiteness_guard default_config no_canopy_row).1 rfl,
   (canopy_finiteness_guard default_config scenario_row).2.1
     (by norm_num [drought_rule, canopy_ok, cellGe, scenario_row, default_config])⟩

theorem parse_gating_mode_error_iff (gm : Option String) :
    (∃ e, parse_gating_mode gm = .error e) ↔ ∃ s, gm = some s ∧ s ∉ gating_mode_names := by
  rcases gm with _ | s
  · simp [parse_gating_mode]
  · by_cases h0 : s = "off"
    · simp [parse_gating_mode, gating_mode_names, h0]
    · by_cases h1 : s = "month_window"
      · simp [parse_gating_mode, gating_mode_names, h0, h1]
      · by_cases h2 : s = "canopy_obs"
        · simp [parse_gating_mode, gating_mode_names, h0, h1, h2]
        · by_cases h3 : s = "both"
          · simp [parse_gating_mode, gating_mode_names, h0, h1, h2, h3]
          · simp [parse_gating_mode, gating_mode_names, h0, h1, h2, h3]

theorem parse_window_mode_error_iff (wm : Option String) :
    (∃ e, parse_window_mode wm = .error e) ↔ ∃ s, wm = some s ∧ s ∉ window_mode_names := by
  rcases wm with _ | s
  · simp [parse_window_mode]
  · by_cases h0 : s = "symmetric"
    · simp [parse_window_mode, window_mode_names, h0]
    · by_cases h1 : s = "past_only"
      · simp [parse_window_mode, window_mode_names, h0, h1]
      · simp [parse_window_mode, window_mode_names, h0, h1]

/-- C5: configuration validation fails fast exactly when the gating-mode or
window-mode key is present with an unrecognized value; absent optional keys
take their documented defaults instead of failing. -/
theorem config_fail_fast :
    (∀ gm wm : Option String,
      (∃ e, validate_config gm wm = .error e) ↔
        ((∃ s, gm = some s ∧ s ∉ gating_mode_names)
          ∨ (∃ s, wm = some s ∧ s ∉ window_mode_names)))
    ∧ validate_config none none = .ok (GatingMode.canopy_obs, WindowMode.symmetric) := by
  refine ⟨?_, rfl⟩
  intro gm wm
  cases hpg : parse_gating_mode gm with
  | error e =>
    have h1 : ∃ s, gm = some s ∧ s ∉ gating_mode_names :=
      (parse_gating_mode_error_iff gm).1 ⟨e, hpg⟩
    simp [validate_config, hpg, h1]
  | ok g =>
    have h1 : ¬∃ s, gm = some s ∧ s ∉ gating_mode_names := by
      rw [← parse_gating_mode_error_iff]
      simp [hpg]
    cases hpw : parse_window_mode wm with
    | error e =>
      have h2 : ∃ s, wm = some s ∧ s ∉ window_mode_names :=
        (parse_window_mode_error_iff wm).1 ⟨e, hpw⟩
      simp [validate_config, hpg, hpw, h2]
    | ok w =>
      have h2 : ¬∃ s, wm = some s ∧ s ∉ window_mode_names := by
        rw [← parse_window_mode_error_iff]
        simp [hpw]
      simp [validate_config, hpg, hpw, h1, h2]

theorem filterMap_pointwise_sublist {α β : Type} (f g : α → Option β)
    (h : ∀ a, g a = none ∨ g a = f a) :
    ∀ l : List α, List.Sublist (l.filterMap g) (l.filterMap f) := by
  intro l
  induction l with
  | nil => simp
  | cons a l ih =>
    rw [List.filterMap_cons, List.filterMap_cons]
    rcases h a with ha | ha
    · rw [ha]
      cases hf : f a with
      | none => exact ih
      | some b => exact ih.cons b
    · rw [ha]
      cases hf : f a with
      | none => exact ih
      | some b => exact ih.cons₂ b

/-- C7: `allow_alert` implies `qc_ok` on every day, and the gated alert list
is a sublist of the raw alert list — gating only removes entries. -/
theorem gating_monotonicity :
    ∀ (c : AlertConfig) (days : List Day),
      (∀ d : Day, allow_alert d = true → d.qc_ok = true)
      ∧ List.Sublist (gated_alerts c days) (raw_alerts c days) := by
  intro c days
  constructor
  · intro d hd
    rw [allow_alert, Bool.and_eq_true] at hd
    exact hd.1
  · unfold gated_alerts raw_alerts
    apply filterMap_pointwise_sublist
    intro d
    by_cases h : allow_alert d = true
    · right
      have hq : d.qc_ok = true := by
        rw [allow_alert, Bool.and_eq_true] at h
        exact h.1
      simp [h, hq]
    · left
      simp [h]

/-- Witness for C7 at a single QC-passing, gating-passing day. -/
theorem gating_monotonicity_witness :
    scenario_day.qc_ok = true
      ∧ List.Sublist (gated_alerts default_config [scenario_day])
          (raw_alerts default_config [scenario_day]) :=
  ⟨(gating_monotonicity default_config [scenario_day]).1 scenario_day rfl,
   (gating_monotonicity default_config [scenario_day]).2⟩

theorem nearest_support_mem (d : ℤ) (l : List ℤ) (s : ℤ)
    (h : nearest_support d l = some s) : s ∈ l := by
  induction l with
  | nil => simp [nearest_support] at h
  | cons o os ih =>
    simp only [nearest_support] at h
    cases hn : nearest_support d os with
    | none =>
      rw [hn] at h
      simp only [Option.some.injEq] at h
      subst h
      exact List.mem_cons_self o os
    | some b =>
      rw [hn] at h
      dsimp only at h
      by_cases hc : closer d o b = true
      · rw [if_pos hc, Option.some.injEq] at h
        subst h
        exact List.mem_cons_self o os
      · rw [if_neg hc, Option.some.injEq] at h
        subst h
        exact List.mem_cons_of_mem o (ih hn)

theorem pick_support_mem (pick : SupportPick) (d : ℤ) (l : List ℤ) (s : ℤ)
    (h : pick_support pick d l = some s) : s ∈ l := by
  cases pick with
  | nearest => exact nearest_support_mem d l s h
  | prefer_past =>
    simp only [pick_support] at h
    cases hn : nearest_support d l with
    | none => rw [hn] at h; exact absurd h (by simp)
    | some b =>
      rw [hn] at h
      dsimp only at h
      cases hp : nearest_support d
          ((l.filter fun o => decide (|d - o| = |d - b|)).filter fun o => decide (o ≤ d)) with
      | none =>
        rw [hp] at h
        dsimp only at h
        rw [Option.some.injEq] at h
        subst h
        exact nearest_support_mem d l b hn
      | some p =>
        rw [hp] at h
        dsimp only at h
        rw [Option.some.injEq] at h
        subst h
        exact List.mem_of_mem_filter (List.mem_of_mem_filter (nearest_support_mem d _ p hp))

theorem candidates_age_le (mode : WindowMode) (W : ℕ) (obs : List ℤ) (d o : ℤ)
    (h : o ∈ candidates mode W obs d) : |d - o| ≤ (W : ℤ) := by
  have hw : in_window mode W d o = true := List.of_mem_filter h
  cases mode with
  | symmetric => simpa [in_window] using hw
  | past_only =>
    simp only [in_window, decide_eq_true_eq] at hw
    rw [abs_of_nonneg hw.1]
    exact hw.2

/-- C8: the resolver reports `rs_support_age = |d - support|` for the chosen
support (always within the window, hence `≤ W`), reports the `9999` sentinel
exactly when no qualifying observation exists (for any sentinel-distinguishing
window, `W < 9999`), and `rs_window_ok` holds iff a support was found with
age `≤ W`. -/
theorem resolve_support_spec :
    ∀ (mode : WindowMode) (pick : SupportPick) (W : ℕ) (obs : List ℤ) (d : ℤ),
      ((resolve_support mode pick W obs d).rs_support_date = none →
        (resolve_support mode pick W obs d).rs_support_age = 9999)
      ∧ (∀ s : ℤ, (resolve_support mode pick W obs d).rs_support_date = some s →
          (resolve_support mode pick W obs d).rs_support_age = |d - s|
            ∧ (resolve_support mode pick W obs d).rs_support_age ≤ (W : ℤ))
      ∧ ((W : ℤ) < 9999 →
          ((resolve_support mode pick W obs d).rs_support_age = 9999
            ↔ (resolve_support mode pick W obs d).rs_support_date = none))
      ∧ ((resolve_support mode pick W obs d).rs_window_ok = true
          ↔ ∃ s : ℤ, (resolve_support mode pick W obs d).rs_support_date = some s
              ∧ (resolve_support mode pick W obs d).rs_support_age ≤ (W : ℤ)) := by
  intro mode pick W obs d
  cases hp : pick_support pick d (candidates mode W obs d) with
  | none => simp [resolve_support, hp]
  | some s =>
    have hage : |d - s| ≤ (W : ℤ) :=
      candidates_age_le mode W obs d s (pick_support_mem pick d _ s hp)
    simp only [resolve_support, hp]
    refine ⟨fun hn => by simp at hn, ?_, ?_, ?_⟩
    · intro s' hs'
      simp only [Option.some.injEq] at hs'
      subst hs'
      exact ⟨rfl, hage⟩
    · intro hW
      constructor
      · intro h9
        exfalso
        rw [h9] at hage
        exact absurd (lt_of_lt_of_le hW hage) (lt_irrefl _)
      · intro hnone
        simp at hnone
    · constructor
      · intro _
        exact ⟨s, rfl, hage⟩
      · intro _
        simp [decide_eq_true_eq]
        exact hage

/-- Witness for C8: a window of two days around day 1 with observations on
days 0 and 5 resolves to day 0 at age 1. -/
theorem resolve_support_spec_witness :
    (resolve_support .symmetric .nearest 2 [0, 5] 1).rs_support_age = |(1 : ℤ) - 0|
      ∧ (resolve_support .symmetric .nearest 2 [0, 5] 1).rs_support_age ≤ ((2 : ℕ) : ℤ) :=
  (resolve_support_spec .symmetric .nearest 2 [0, 5] 1).2.1 0 rfl

/-- C9: the merger starts a new bucket exactly when the gap between
consecutive same-type alert dates exceeds `merge_gap_days + 1`; gated drought
alerts on days 1 and 3 merge into one event spanning days 1–3 with
`merge_gap_days = 1`, and into two separate events with `merge_gap_days = 0`. -/
theorem merge_grouping :
    (∀ (g : ℕ) (d₁ d₂ : ℤ),
        bucket_dates g [d₁, d₂] =
          if (g : ℤ) + 1 < d₂ - d₁ then [[d₁], [d₂]] else [[d₁, d₂]])
    ∧ merge_alerts 1 [⟨1, ⟨"drought", "ndmi low"⟩⟩, ⟨3, ⟨"drought", "msi high"⟩⟩]
        = [⟨"drought", 1, 3, 3⟩]
    ∧ merge_alerts 0 [⟨1, ⟨"drought", "ndmi low"⟩⟩, ⟨3, ⟨"drought", "msi high"⟩⟩]
        = [⟨"drought", 1, 1, 1⟩, ⟨"drought", 3, 3, 1⟩] := by
  refine ⟨?_, ?_, ?_⟩
  · intro g d₁ d₂
    simp only [bucket_dates, buckets_aux]
    split <;> simp [buckets_aux]
  · norm_num [merge_alerts, event_types_of, dates_of_type, sort_dates, insert_date,
      bucket_dates, buckets_aux, event_of_bucket, bucket_min, bucket_max,
      List.dedup, List.filter]
  · norm_num [merge_alerts, event_types_of, dates_of_type, sort_dates, insert_date,
      bucket_dates, buckets_aux, event_of_bucket, bucket_min, bucket_max,
      List.dedup, List.filter]

end SpecModel

end AgriSense
